import Mathlib

/-!
Verification of the Gutenberg-Galaxy visualization core
(src/assets/script.js) against its natural-language specification.

The JavaScript source is shallowly embedded: pure computations become Lean
functions, the mutable scene/timeline state becomes explicit state passing,
JS numbers holding years become `Int`, optional JS fields (`null`/`undefined`)
become `Option`, and code paths that throw a `TypeError` become `Except`
values.  JS truthiness of year fields (where `0`, `null` and `undefined` are
all falsy in `a || b`) is modelled explicitly by `jsOrOpt`.
-/

set_option autoImplicit false

namespace GutenbergGalaxy

/-- An author record as consumed from the Gutendex response:
`authors[].name`, `authors[].birth_year`, `authors[].death_year`
(the year fields are integers or null). -/
structure Author where
  name : String
  birth_year : Option Int
  death_year : Option Int
deriving DecidableEq, Repr

/-- A book record as consumed by script.js.  `subjects` is an `Option`
because a JS field can be absent (`undefined`): line 102 reads
`book.subjects` and calls `.forEach` on it without any guard.
Fields the embedded logic never reads (`languages`, `download_count`,
which the tooltip only displays verbatim) are omitted as inert. -/
structure Book where
  title : String
  authors : List Author
  subjects : Option (List String)
deriving DecidableEq, Repr

/-- JS `x || y` on two nullable numbers: `x` wins iff it is truthy,
i.e. present and nonzero (`null`, `undefined` and `0` are all falsy). -/
def jsOrOpt (x y : Option Int) : Option Int :=
  match x with
  | none => y
  | some v => if v = 0 then y else some v

/-- Lines 252-257 of script.js (inside `showPlanetaryPanel`):
`const author = book.authors[0];
 const deathYear = author ? author.death_year : null;
 const birthYear = author ? author.birth_year : null;
 const year = deathYear || birthYear || 1900;` -/
def effYearPanel (b : Book) : Int :=
  match b.authors.head? with
  | none => 1900
  | some a => (jsOrOpt (jsOrOpt a.death_year a.birth_year) (some 1900)).getD 1900

/-- Lines 379-382 of script.js (inside `updateTimeline`): textually the same
author-year fallback as in `showPlanetaryPanel`, embedded separately because
the source duplicates it. -/
def effYearTimeline (b : Book) : Int :=
  match b.authors.head? with
  | none => 1900
  | some a => (jsOrOpt (jsOrOpt a.death_year a.birth_year) (some 1900)).getD 1900

/-- Lines 327-330 of script.js (inside `showTooltip`):
`const year = deathYear || birthYear || 'Unknown';` — `none` models the
string `'Unknown'` shown when both year fields are falsy. -/
def tooltipYear (b : Book) : Option Int :=
  match b.authors.head? with
  | none => none
  | some a => jsOrOpt (jsOrOpt a.death_year a.birth_year) none

/-- The timeline slider state (`timelineData`, line 83):
`{ startYear: 1800, endYear: 2023 }`. -/
structure YearRange where
  startYear : Int
  endYear : Int
deriving DecidableEq, Repr

/-- Line 257 / line 383 of script.js:
`year >= timelineData.startYear && year <= timelineData.endYear`. -/
def inRange (tl : YearRange) (y : Int) : Bool :=
  decide (tl.startYear ≤ y) && decide (y ≤ tl.endYear)

/-! ## Spec-side readings of the effective-year rule (for claim C1) -/

/-- Spec reading (§3): "Effective year for a book = death_year if present,
else birth_year if present, else a fixed default (1900)" — with "present"
taken literally as the field being set, regardless of its value. -/
def specEffYear (b : Book) : Int :=
  match b.authors.head? with
  | none => 1900
  | some a => a.death_year.getD (a.birth_year.getD 1900)

/-- Fallback to the first author's birth year when it is present and
nonzero, else 1900 (JS truthiness). -/
def birthOr1900 (a : Author) : Int :=
  match a.birth_year with
  | some v => if v = 0 then 1900 else v
  | none => 1900

/-- Amended spec reading: effective year = death_year if present and
nonzero, else birth_year if present and nonzero, else 1900 — the exact
semantics of `deathYear || birthYear || 1900` under JS truthiness. -/
def specEffYearAmended (b : Book) : Int :=
  match b.authors.head? with
  | none => 1900
  | some a =>
    match a.death_year with
    | some d => if d = 0 then birthOr1900 a else d
    | none => birthOr1900 a

/-! ## Subject tokenizer / frequency indexer (script.js lines 100-122) -/

/-- JS `String.prototype.split` with a single-character separator predicate,
modelled on the character list of the string: empty pieces between
consecutive separators (and at the ends) are kept, and splitting the empty
string yields one empty piece, exactly as in JS. -/
def splitChars (p : Char → Bool) : List Char → List (List Char)
  | [] => [[]]
  | c :: cs =>
    match splitChars p cs with
    | [] => [[]]
    | g :: gs => if p c then [] :: g :: gs else (c :: g) :: gs

/-- String-level wrapper for `splitChars`. -/
def jsSplit (p : Char → Bool) (s : String) : List String :=
  (splitChars p s.data).map String.mk

/-- Line 106 of script.js:
`word.replace(/[^a-zA-Z]/g, '').toLowerCase()` — keep exactly the ASCII
letters (`Char.isAlpha` decides `[a-zA-Z]`), then lowercase. -/
def normalizeWord (w : String) : String :=
  String.mk ((w.data.filter Char.isAlpha).map Char.toLower)

/-- Lines 104-107 of script.js: `subject.split(' ')`, normalize each piece,
keep only the pieces that remain nonempty (`if (word) { ... }`). -/
def tokenize (s : String) : List String :=
  ((jsSplit (fun c => c == ' ') s).map normalizeWord).filter (fun w => w != "")

/-- Spec reading (§4.1): "split each subject string on whitespace", then the
same normalization — used to compare the spec's tokenizer with the code's
space-only split. -/
def tokenizeWs (s : String) : List String :=
  ((jsSplit Char.isWhitespace s).map normalizeWord).filter (fun w => w != "")

/-- One value of the `wordMap` (line 109): `{ count: 0, books: [] }`. -/
structure WordMapEntry where
  count : Nat
  books : List Book
deriving DecidableEq, Repr

/-- The `wordMap` `Map` object (line 100), as an insertion-ordered
association list. -/
abbrev WordMap : Type := List (String × WordMapEntry)

/-- `wordMap.get(word)` modulo the `.map (·.2)`: first entry with the key. -/
def mapFind (m : WordMap) (w : String) : Option WordMapEntry :=
  match m with
  | [] => none
  | (k, e) :: rest => if k = w then some e else mapFind rest w

/-- Lines 108-113 of script.js, for one surviving token `w` of book `b`:
insert `{ count: 0, books: [] }` if the key is new (a JS `Map.set` of a new
key appends at the end, preserving insertion order), then increment `count`
and push `b`.  Updating an existing key keeps its position. -/
def bumpWord (m : WordMap) (w : String) (b : Book) : WordMap :=
  match m with
  | [] => [(w, ⟨1, [b]⟩)]
  | (k, e) :: rest =>
    if k = w then (k, ⟨e.count + 1, e.books ++ [b]⟩) :: rest
    else (k, e) :: bumpWord rest w b

/-- Lines 103-115 of script.js for one book with its subjects list in hand:
the nested `subjects.forEach / words.forEach` accumulation. -/
def processSubjects (m : WordMap) (b : Book) (subs : List String) : WordMap :=
  subs.foldl (fun m s => (tokenize s).foldl (fun m w => bumpWord m w b) m) m

/-- Lines 101-116 of script.js for one book: reading `book.subjects` and
calling `.forEach` on it throws a `TypeError` when the field is absent. -/
def processBookE (m : WordMap) (b : Book) : Except String WordMap :=
  match b.subjects with
  | none => .error "TypeError: Cannot read properties of undefined (reading forEach)"
  | some subs => .ok (processSubjects m b subs)

/-- The whole indexing pass of `loadData` (lines 100-116): a fold over the
fetched books, aborting at the first thrown `TypeError` (the surrounding
`try`/`catch` then logs and never builds `wordsData`). -/
def buildWordMapE (books : List Book) : Except String WordMap :=
  books.foldlM processBookE []

/-- The same pass restricted to books whose subjects list is present
(an absent list is read as empty); `buildWordMapE` agrees with it whenever
it succeeds. -/
def buildPure (books : List Book) : WordMap :=
  books.foldl (fun m b => processSubjects m b (b.subjects.getD [])) []

/-- The `wordData` objects of lines 118-122:
`{ text, frequency: data.count, books: data.books }`. -/
structure WordData where
  text : String
  frequency : Nat
  books : List Book
deriving DecidableEq, Repr

/-- Lines 118-122 of script.js: `Array.from(wordMap.entries()).map(...)`. -/
def toWordsData (m : WordMap) : List WordData :=
  m.map (fun p => ⟨p.1, p.2.count, p.2.books⟩)

/-! ## Occurrence counts used to characterize the index (claim C4) -/

/-- All surviving tokens contributed by one book (subjects read as in
`buildPure`). -/
def bookTokens (b : Book) : List String :=
  (b.subjects.getD []).flatMap tokenize

/-- Number of occurrences of token `w` among one book's tokens. -/
def occIn (b : Book) (w : String) : Nat :=
  (bookTokens b).count w

/-- Total number of occurrences of token `w` over a list of books. -/
def totalOcc (books : List Book) (w : String) : Nat :=
  (books.map (fun b => occIn b w)).sum

/-- The expected book list for token `w`: one copy of each book per
occurrence it contributes, in fetch order. -/
def contribs (books : List Book) (w : String) : List Book :=
  books.flatMap (fun b => List.replicate (occIn b w) b)

/-- Spec-side (whitespace-split) token occurrences, for the C4
counterexample. -/
def occInWs (b : Book) (w : String) : Nat :=
  ((b.subjects.getD []).flatMap tokenizeWs).count w

/-- Spec-side total occurrences over a book list. -/
def totalOccWs (books : List Book) (w : String) : Nat :=
  (books.map (fun b => occInWs b w)).sum

/-- Spec-side expected book list. -/
def contribsWs (books : List Book) (w : String) : List Book :=
  books.flatMap (fun b => List.replicate (occInWs b w) b)

/-- Abstract effect on one map entry of `n` further occurrences of its word
carrying the book list `bs`: create the entry when absent (and `n > 0`),
otherwise extend count and book list.  Used to state what the nested
`forEach` accumulation does to each key. -/
def addMany (prev : Option WordMapEntry) (n : Nat) (bs : List Book) : Option WordMapEntry :=
  match prev with
  | none => if n = 0 then none else some ⟨n, bs⟩
  | some e => some ⟨e.count + n, e.books ++ bs⟩

/-! ## Catalog fetch loop (script.js lines 86-97) -/

/-- One page of the remote catalog, restricted to the fields the loop
consumes: `data.results` and `data.next` (a URL or null). -/
structure PageResp where
  results : List Book
  next : Option String
deriving DecidableEq, Repr

/-- JS truthiness of the `nextPage` cursor: null/undefined and the empty
string are falsy. -/
def cursorTruthy : Option String → Bool
  | none => false
  | some u => u != ""

/-- Lines 91-97 of script.js:
`while (nextPage && pageCount < 3) { fetch; concat results; follow next;
pageCount++ }`, with the remote service abstracted as a pure
`String → PageResp` map.  `budget` is `3 - pageCount`, so the top-level call
uses budget 3; the function returns the concatenated `allBooks` together
with the list of URLs requested, in request order. -/
def fetchPages (remote : String → PageResp) : Nat → Option String → List Book × List String
  | 0, _ => ([], [])
  | _ + 1, none => ([], [])
  | budget + 1, some url =>
    if url = "" then ([], [])
    else
      let page := remote url
      let r := fetchPages remote budget page.next
      (page.results ++ r.1, url :: r.2)

/-- The initial URL of line 89. -/
def startUrl : String := "https://gutendex.com/books/"

/-- The fetch phase of `loadData`: at most 3 pages starting from
`startUrl`. -/
def loadBooks (remote : String → PageResp) : List Book × List String :=
  fetchPages remote 3 (some startUrl)

/-- The requested URLs form a cursor chain: the first request goes to the
initial cursor, and each later request goes to the `next` cursor of the
previous response. -/
def seqChain (remote : String → PageResp) : Option String → List String → Prop
  | _, [] => True
  | cur, u :: rest => cur = some u ∧ seqChain remote (remote u).next rest

/-! ## Sphere layout (script.js lines 180-186) -/

/-- Line 182: `const phi = Math.acos(-1 + (2 * index) / total);`. -/
noncomputable def sPhi (index total : ℕ) : ℝ :=
  Real.arccos (-1 + (2 * (index : ℝ)) / (total : ℝ))

/-- Line 183: `const theta = Math.sqrt(total * Math.PI) * phi;`. -/
noncomputable def sTheta (index total : ℕ) : ℝ :=
  Real.sqrt ((total : ℝ) * Real.pi) * sPhi index total

/-- A 3D position. -/
structure Vec3 where
  x : ℝ
  y : ℝ
  z : ℝ

/-- Lines 181-185: `mesh.position.setFromSphericalCoords(800, phi, theta)`.
THREE.js spherical coordinates (documented behavior of the external
library, y-up): `x = r·sin φ·sin θ`, `y = r·cos φ`, `z = r·sin φ·cos θ`. -/
noncomputable def positionOnSphere (index total : ℕ) : Vec3 :=
  ⟨800 * Real.sin (sPhi index total) * Real.sin (sTheta index total),
   800 * Real.cos (sPhi index total),
   800 * Real.sin (sPhi index total) * Real.cos (sTheta index total)⟩

/-- Euclidean distance of a position from the origin. -/
noncomputable def norm3 (v : Vec3) : ℝ :=
  Real.sqrt (v.x ^ 2 + v.y ^ 2 + v.z ^ 2)

/-! ## Scene state: word meshes, planet groups, timeline updates -/

/-- A word mesh of the word cloud: its `userData = { wordData }` (line 175)
and its `visible` flag, toggled by `updateTimeline`. -/
structure WordMesh where
  wordData : WordData
  visible : Bool
deriving DecidableEq, Repr

/-- A planet mesh created by `createPlanetMesh` (lines 272-280):
`mesh.userData = { book }` — and nothing else; in particular it carries no
`wordData`. -/
structure PlanetMesh where
  book : Book
deriving DecidableEq, Repr

/-- Reading `userData.wordData` off a planet mesh yields `undefined`,
because `createPlanetMesh` sets `userData = { book }` only. -/
def planetWordData (_ : PlanetMesh) : Option WordData := none

/-- The scene, restricted to the objects the embedded logic manipulates:
the children of the global `wordGroup`, and the groups named
`'planetGroup'` in scene order (each a list of planet meshes).
`scene.getObjectByName('planetGroup')` returns the first of them. -/
structure Scene where
  wordMeshes : List WordMesh
  planetGroups : List (List PlanetMesh)
deriving DecidableEq, Repr

/-- The scene right after `createWordCloud`: no planet group yet. -/
def initScene (ws : List WordMesh) : Scene := ⟨ws, []⟩

/-- Lines 243-246 of script.js: `scene.getObjectByName('planetGroup')` finds
the first group with that name and `scene.remove` removes exactly it. -/
def removeFirstGroup : List (List PlanetMesh) → List (List PlanetMesh)
  | [] => []
  | _ :: rest => rest

/-- Lines 252-258 of script.js: the year-range filter of
`showPlanetaryPanel` over the selected word's book list. -/
def panelBooks (wd : WordData) (tl : YearRange) : List Book :=
  wd.books.filter (fun b => inRange tl (effYearPanel b))

/-- Lines 260-264: one planet mesh per filtered book, in filter order. -/
def mkSatellites (wd : WordData) (tl : YearRange) : List (PlanetMesh) :=
  (panelBooks wd tl).map (fun b => ⟨b⟩)

/-- `showPlanetaryPanel` (lines 241-267) on a real `wordData`: remove the
previous planet group if any, then add the group of filtered satellites
(`scene.add` appends at the end of the scene's children). -/
def showPlanetaryPanelOk (wd : WordData) (tl : YearRange) (s : Scene) : Scene :=
  { s with planetGroups := removeFirstGroup s.planetGroups ++ [mkSatellites wd tl] }

/-- `showPlanetaryPanel` as called with a possibly-undefined `wordData`
argument: line 252 evaluates `wordData.books`, which throws when the
argument is `undefined` (the previous group has already been removed at
that point, but the thrown error aborts the whole update). -/
def showPlanetaryPanelE (wd : Option WordData) (tl : YearRange) (s : Scene) :
    Except String Scene :=
  match wd with
  | none => .error "TypeError: Cannot read properties of undefined (reading books)"
  | some w => .ok (showPlanetaryPanelOk w tl s)

/-- Lines 367-373 of script.js: swap `startYear`/`endYear` when out of
order. -/
def fixRange (tl : YearRange) : YearRange :=
  if tl.endYear < tl.startYear then ⟨tl.endYear, tl.startYear⟩ else tl

/-- Lines 376-386 of script.js: set each word mesh's `visible` flag to
whether at least one of its books passes the year filter. -/
def updateVisibility (tl : YearRange) (ws : List WordMesh) : List WordMesh :=
  ws.map (fun m =>
    ⟨m.wordData,
     decide (0 < (m.wordData.books.filter (fun b => inRange tl (effYearTimeline b))).length)⟩)

/-- `updateTimeline` (lines 366-394): swap the bounds if needed, recompute
word visibility, then — if a planet group is open — re-show the panel from
`planetGroup.children[0]`.  That child is a planet mesh (or `undefined` for
an empty group), so `wordMesh.userData.wordData` is `undefined`
(`planetWordData`), resp. the `.userData` access itself throws. -/
def updateTimelineE (tl : YearRange) (s : Scene) : Except String (YearRange × Scene) :=
  let tl1 := fixRange tl
  let s1 : Scene := ⟨updateVisibility tl1 s.wordMeshes, s.planetGroups⟩
  match s1.planetGroups.head? with
  | none => .ok (tl1, s1)
  | some g =>
    match g.head? with
    | none => .error "TypeError: Cannot read properties of undefined (reading userData)"
    | some m => (showPlanetaryPanelE (planetWordData m) tl1 s1).map (fun s2 => (tl1, s2))

/-- A sequence of word selections applied from the initial scene. -/
def applySelections (ws : List WordMesh) (sels : List (WordData × YearRange)) : Scene :=
  sels.foldl (fun s p => showPlanetaryPanelOk p.1 p.2 s) (initScene ws)

/-! ## Concrete records used as test inputs, counterexamples and witnesses -/

/-- An author whose death year is literally 0: the field is present, but JS
`||` treats it as absent. -/
def zeroDeathAuthor : Author := ⟨"Anon", some 1950, some 0⟩

/-- A book whose only author has death_year 0 and birth_year 1950. -/
def zeroDeathBook : Book := ⟨"Zero", [zeroDeathAuthor], some []⟩

/-- A word entry owning just `zeroDeathBook`. -/
def zeroDeathWord : WordData := ⟨"zero", 1, [zeroDeathBook]⟩

/-- The year range [1900, 2000]. -/
def range1900to2000 : YearRange := ⟨1900, 2000⟩

/-- The full slider range [1800, 2023] (the initial `timelineData`). -/
def fullRange : YearRange := ⟨1800, 2023⟩

/-- An ordinary book: one author (1850-1920), one subject "Art". -/
def bkArt : Book := ⟨"Art Book", [⟨"X", some 1850, some 1920⟩], some ["Art"]⟩

/-- The word entry for "art" owning `bkArt`. -/
def wdArt : WordData := ⟨"art", 1, [bkArt]⟩

/-- A word entry owning no books at all: its selection group is empty. -/
def wdEmpty : WordData := ⟨"void", 1, []⟩

/-- The scene reached by selecting the word "art" from the initial scene. -/
def sceneSelArt : Scene := showPlanetaryPanelOk wdArt fullRange (initScene [])

/-- The scene reached by selecting a word whose satellite set is empty. -/
def sceneSelEmpty : Scene := showPlanetaryPanelOk wdEmpty fullRange (initScene [])

/-- A book whose single subject contains a tab: `split(' ')` keeps
"a\tb" whole, a whitespace split would not. -/
def bkTab : Book := ⟨"Tab", [], some ["a\tb"]⟩

/-- A book whose `subjects` field is absent. -/
def bkNoSubj : Book := ⟨"NoSubjects", [], none⟩

/-- A book with empty subjects list. -/
def bkEmptySubj : Book := ⟨"EmptySubjects", [], some []⟩

/-- Two books sharing the same first author but differing in their later
authors (and titles). -/
def bkShared1 : Book :=
  ⟨"P", [⟨"A", some 1800, some 1870⟩, ⟨"B", some 1900, some 1980⟩], some []⟩

/-- Companion of `bkShared1` with a different second author. -/
def bkShared2 : Book :=
  ⟨"Q", [⟨"A", some 1800, some 1870⟩, ⟨"C", some 1600, none⟩], some []⟩

/-- Single book returned on the first remote page. -/
def pageBook1 : Book := ⟨"one", [], some []⟩

/-- Single book returned on the second remote page. -/
def pageBook2 : Book := ⟨"two", [], some []⟩

/-- The second page's URL in the two-page fetch scenario. -/
def page2Url : String := "https://gutendex.com/books/?page=2"

/-- A remote catalog with exactly two pages: the first response points to
`page2Url`, the second carries `next = null`. -/
def remoteTwoPages : String → PageResp := fun u =>
  if u = startUrl then ⟨[pageBook1], some page2Url⟩
  else if u = page2Url then ⟨[pageBook2], none⟩
  else ⟨[], none⟩

example : tokenize "Art -- History; 19th century" = ["art", "history", "th", "century"] := by decide
example : tokenize "" = [] := by decide
example : tokenize "a\tb" = ["ab"] := by decide
example : tokenizeWs "a\tb" = ["a", "b"] := by decide
example : normalizeWord "Café!" = "caf" := by decide
example : effYearPanel zeroDeathBook = 1950 := by decide
example : specEffYear zeroDeathBook = 0 := by decide

/-! ## Helper lemmas -/

/-- The code's effective year agrees everywhere with the truthiness-aware
spec reading (death year if present and nonzero, else birth year if present
and nonzero, else 1900). -/
lemma effYearPanel_eq_amended (b : Book) : effYearPanel b = specEffYearAmended b := by
  cases hh : b.authors.head? with
  | none => simp [effYearPanel, specEffYearAmended, hh]
  | some a =>
    cases hd : a.death_year with
    | none =>
      cases hb : a.birth_year with
      | none => simp [effYearPanel, specEffYearAmended, jsOrOpt, birthOr1900, hh, hd, hb]
      | some bv =>
        by_cases h0 : bv = 0 <;>
          simp [effYearPanel, specEffYearAmended, jsOrOpt, birthOr1900, hh, hd, hb, h0]
    | some d =>
      by_cases h0 : d = 0
      · cases hb : a.birth_year with
        | none => simp [effYearPanel, specEffYearAmended, jsOrOpt, birthOr1900, hh, hd, hb, h0]
        | some bv =>
          by_cases hb0 : bv = 0 <;>
            simp [effYearPanel, specEffYearAmended, jsOrOpt, birthOr1900, hh, hd, hb, h0, hb0]
      · simp [effYearPanel, specEffYearAmended, jsOrOpt, birthOr1900, hh, hd, h0]

/-! ## Claim theorems -/

/-- C1 (counterexample): the claim's effective-year rule reads "death_year
if present"; for `zeroDeathBook` (death_year = 0, birth_year = 1950) that
rule gives effective year 0, which is outside [1900, 2000], so the claim
says the book is excluded — but the code's `deathYear || birthYear || 1900`
skips the falsy 0 and includes the book with year 1950. -/
theorem C1_counterexample :
    ¬(zeroDeathBook ∈ panelBooks zeroDeathWord range1900to2000 ↔
      (range1900to2000.startYear ≤ specEffYear zeroDeathBook ∧
        specEffYear zeroDeathBook ≤ range1900to2000.endYear)) := by decide

/-- C1 (amended): for every selected word and active year range, the
Selection/Orbit Presenter includes a book in the satellite set iff its
effective year — death_year if present and nonzero, else birth_year if
present and nonzero, else 1900 — lies within [start, end] inclusive. -/
theorem C1_panel_filter_effective_year (wd : WordData) (tl : YearRange) (b : Book) :
    b ∈ panelBooks wd tl ↔
      b ∈ wd.books ∧
        tl.startYear ≤ specEffYearAmended b ∧ specEffYearAmended b ≤ tl.endYear := by
  simp only [panelBooks, List.mem_filter, inRange, Bool.and_eq_true, decide_eq_true_eq,
    effYearPanel_eq_amended, and_assoc]

/-- C2 (code bug): with a selection open, `updateTimeline` passes
`planetGroup.children[0].userData.wordData` — which is `undefined`, since
children of the planet group are planet meshes whose `userData` holds only
`book` — to `showPlanetaryPanel`, which throws reading `.books`; with an
open but empty selection, even the `.userData` access throws.  The
recomputation therefore fails for every reachable state with an open
selection, contradicting the claim. -/
theorem C2_timeline_recompute_crashes :
    updateTimelineE fullRange sceneSelArt =
      .error "TypeError: Cannot read properties of undefined (reading books)" ∧
    updateTimelineE fullRange sceneSelEmpty =
      .error "TypeError: Cannot read properties of undefined (reading userData)" :=
  ⟨rfl, rfl⟩

/-- C3: after the swap step of `updateTimeline`, start ≤ end always holds;
the update is a swap, never a rejection, and start=2000/end=1900 becomes
start=1900/end=2000. -/
theorem C3_timeline_swap_invariant (s e : Int) :
    (fixRange ⟨s, e⟩).startYear ≤ (fixRange ⟨s, e⟩).endYear ∧
    fixRange ⟨s, e⟩ = (if e < s then ⟨e, s⟩ else ⟨s, e⟩) ∧
    fixRange (⟨2000, 1900⟩ : YearRange) = ⟨1900, 2000⟩ := by
  refine ⟨?_, rfl, by decide⟩
  simp only [fixRange]
  split_ifs with h <;> simp <;> omega

/-- C10: at every site computing an effective year — the selection filter,
the timeline visibility recompute, and the tooltip — the result depends only
on `book.authors[0]`: two books with the same first author (or both with
none) get the same effective year, the same in-range decisions, and the same
tooltip year, whatever their later authors are. -/
theorem C10_first_author_only (b₁ b₂ : Book) (h : b₁.authors.head? = b₂.authors.head?) :
    effYearPanel b₁ = effYearPanel b₂ ∧
    effYearTimeline b₁ = effYearTimeline b₂ ∧
    tooltipYear b₁ = tooltipYear b₂ ∧
    ∀ tl : YearRange,
      inRange tl (effYearPanel b₁) = inRange tl (effYearPanel b₂) ∧
      inRange tl (effYearTimeline b₁) = inRange tl (effYearTimeline b₂) := by
  have h1 : effYearPanel b₁ = effYearPanel b₂ := by unfold effYearPanel; rw [h]
  have h2 : effYearTimeline b₁ = effYearTimeline b₂ := by unfold effYearTimeline; rw [h]
  have h3 : tooltipYear b₁ = tooltipYear b₂ := by unfold tooltipYear; rw [h]
  exact ⟨h1, h2, h3, fun tl => ⟨by rw [h1], by rw [h2]⟩⟩

/-- C10 witness: two concrete books sharing a first author but with
different second authors get identical years everywhere. -/
theorem C10_witness :
    effYearPanel bkShared1 = effYearPanel bkShared2 ∧
    effYearTimeline bkShared1 = effYearTimeline bkShared2 ∧
    tooltipYear bkShared1 = tooltipYear bkShared2 := by
  have h := C10_first_author_only bkShared1 bkShared2 (by decide)
  exact ⟨h.1, h.2.1, h.2.2.1⟩

/-- Unfolding of the y component: `r · cos (arccos (-1 + 2i/N))` collapses
to `800 · (-1 + 2i/N)` once `-1 + 2i/N ∈ [-1, 1]`, which holds for
`i ≤ N`, `0 < N`. -/
lemma y_positionOnSphere (i N : ℕ) (hi : i ≤ N) (hN : 0 < N) :
    (positionOnSphere i N).y = 800 * (-1 + (2 * (i : ℝ)) / (N : ℝ)) := by
  have hNpos : (0 : ℝ) < (N : ℝ) := by exact_mod_cast hN
  have hlo : (-1 : ℝ) ≤ -1 + (2 * (i : ℝ)) / (N : ℝ) := by
    have : (0 : ℝ) ≤ (2 * (i : ℝ)) / (N : ℝ) := by positivity
    linarith
  have hhi : -1 + (2 * (i : ℝ)) / (N : ℝ) ≤ 1 := by
    have hiN : (i : ℝ) ≤ (N : ℝ) := by exact_mod_cast hi
    have : (2 * (i : ℝ)) / (N : ℝ) ≤ 2 := by
      rw [div_le_iff₀ hNpos]
      linarith
    linarith
  show 800 * Real.cos (sPhi i N) = _
  rw [sPhi, Real.cos_arccos hlo hhi]

/-- Every sphere position has Euclidean norm exactly 800. -/
lemma norm3_positionOnSphere (i N : ℕ) : norm3 (positionOnSphere i N) = 800 := by
  have ht := Real.sin_sq_add_cos_sq (sTheta i N)
  have hp := Real.sin_sq_add_cos_sq (sPhi i N)
  have hsum : (800 * Real.sin (sPhi i N) * Real.sin (sTheta i N)) ^ 2 +
      (800 * Real.cos (sPhi i N)) ^ 2 +
      (800 * Real.sin (sPhi i N) * Real.cos (sTheta i N)) ^ 2 = 800 ^ 2 := by
    linear_combination (640000 * Real.sin (sPhi i N) ^ 2) * ht + 640000 * hp
  show Real.sqrt _ = 800
  rw [show (positionOnSphere i N).x = 800 * Real.sin (sPhi i N) * Real.sin (sTheta i N) from rfl,
    show (positionOnSphere i N).y = 800 * Real.cos (sPhi i N) from rfl,
    show (positionOnSphere i N).z = 800 * Real.sin (sPhi i N) * Real.cos (sTheta i N) from rfl,
    hsum, Real.sqrt_sq (by norm_num : (0 : ℝ) ≤ 800)]

/-- C7: for N ≥ 2 word entries, the Fibonacci-sphere placement gives
pairwise-distinct positions (their y components `800·(-1 + 2i/N)` already
differ), each at exactly distance 800 from the origin; the placement is a
pure function of index and total, so recomputation reproduces it. -/
theorem C7_sphere_layout (N i j : ℕ) (hN : 2 ≤ N) (hi : i < N) (hj : j < N)
    (hij : i ≠ j) :
    positionOnSphere i N ≠ positionOnSphere j N ∧
    norm3 (positionOnSphere i N) = 800 := by
  have hNpos : 0 < N := lt_of_lt_of_le (by norm_num) hN
  refine ⟨?_, norm3_positionOnSphere i N⟩
  intro h
  have hy := congrArg Vec3.y h
  rw [y_positionOnSphere i N hi.le hNpos, y_positionOnSphere j N hj.le hNpos] at hy
  have hNne : (N : ℝ) ≠ 0 := by
    exact_mod_cast Nat.pos_iff_ne_zero.mp hNpos
  refine hij ?_
  field_simp at hy
  exact_mod_cast hy

/-- C7 witness: with N = 2 the two positions are distinct and the first one
sits at distance 800 from the origin. -/
theorem C7_witness :
    positionOnSphere 0 2 ≠ positionOnSphere 1 2 ∧ norm3 (positionOnSphere 0 2) = 800 :=
  C7_sphere_layout 2 0 1 (by decide) (by decide) (by decide) (by decide)

/-- The fetch loop requests at most `budget` pages. -/
lemma fetchPages_length_le (remote : String → PageResp) (budget : ℕ) (np : Option String) :
    (fetchPages remote budget np).2.length ≤ budget := by
  induction budget generalizing np with
  | zero => cases np <;> simp [fetchPages]
  | succ k ih =>
    cases np with
    | none => simp [fetchPages]
    | some url =>
      by_cases h : url = ""
      · simp [fetchPages, h]
      · simpa [fetchPages, h] using ih (remote url).next

/-- The requested URLs form the cursor chain: the first request goes to the
starting cursor and every later one to the previous response's `next`. -/
lemma fetchPages_chain (remote : String → PageResp) (budget : ℕ) (np : Option String) :
    seqChain remote np (fetchPages remote budget np).2 := by
  induction budget generalizing np with
  | zero => cases np <;> simp [fetchPages, seqChain]
  | succ k ih =>
    cases np with
    | none => simp [fetchPages, seqChain]
    | some url =>
      by_cases h : url = ""
      · simp [fetchPages, h, seqChain]
      · simp only [fetchPages, h, if_false]
        exact ⟨rfl, ih (remote url).next⟩

/-- C6: the catalog fetch requests pages strictly sequentially (each request
URL is the previous response's `next` cursor), fetches at most 3 pages, and
on a remote that returns 2 pages and then `next = null` it fetches exactly
the 2 pages, in order. -/
theorem C6_fetch_bounded_sequential (remote : String → PageResp) :
    (loadBooks remote).2.length ≤ 3 ∧
    seqChain remote (some startUrl) (loadBooks remote).2 ∧
    loadBooks remoteTwoPages = ([pageBook1, pageBook2], [startUrl, page2Url]) :=
  ⟨fetchPages_length_le remote 3 (some startUrl),
   fetchPages_chain remote 3 (some startUrl), by decide⟩

/-- Adding zero occurrences changes nothing. -/
lemma addMany_zero (prev : Option WordMapEntry) : addMany prev 0 [] = prev := by
  cases prev <;> simp [addMany]

/-- Two successive extensions of an entry fuse, provided the first one is
not a phantom (zero occurrences with a nonempty book list). -/
lemma addMany_addMany (prev : Option WordMapEntry) (n₁ n₂ : Nat) (bs₁ bs₂ : List Book)
    (h : n₁ = 0 → bs₁ = []) :
    addMany (addMany prev n₁ bs₁) n₂ bs₂ = addMany prev (n₁ + n₂) (bs₁ ++ bs₂) := by
  cases prev with
  | none =>
    by_cases h1 : n₁ = 0
    · subst h1
      rw [h rfl]
      simp [addMany]
    · have hne : n₁ + n₂ ≠ 0 := by omega
      simp [addMany, h1, hne]
  | some e => simp [addMany, Nat.add_assoc, List.append_assoc]

/-- Effect of one `bumpWord` on any lookup: the bumped key gains one
occurrence of the book, other keys are untouched. -/
lemma mapFind_bumpWord (m : WordMap) (w v : String) (b : Book) :
    mapFind (bumpWord m w b) v =
      if v = w then addMany (mapFind m w) 1 [b] else mapFind m v := by
  induction m with
  | nil =>
    by_cases hvw : v = w
    · subst hvw
      simp [bumpWord, mapFind, addMany]
    · have hwv : ¬(w = v) := fun hh => hvw hh.symm
      simp [bumpWord, mapFind, addMany, hvw, hwv]
  | cons p rest ih =>
    obtain ⟨k, e⟩ := p
    by_cases hkw : k = w
    · subst hkw
      by_cases hvk : v = k
      · subst hvk
        simp [bumpWord, mapFind, addMany]
      · have hkv : ¬(k = v) := fun hh => hvk hh.symm
        simp [bumpWord, mapFind, hvk, hkv]
    · by_cases hvk : v = k
      · subst hvk
        have hvw : ¬(v = w) := hkw
        simp [bumpWord, mapFind, hkw, hvw]
      · have hkv : ¬(k = v) := fun hh => hvk hh.symm
        simp only [bumpWord, if_neg hkw, mapFind, if_neg hkv]
        rw [ih]

/-- Folding one book's surviving tokens into the map adds, at each key, as
many occurrences (each carrying that book) as the key has in the token
list. -/
lemma mapFind_foldTokens (b : Book) (ts : List String) :
    ∀ (m : WordMap) (v : String),
      mapFind (ts.foldl (fun m w => bumpWord m w b) m) v =
        addMany (mapFind m v) (ts.count v) (List.replicate (ts.count v) b) := by
  induction ts with
  | nil =>
    intro m v
    simp [addMany_zero]
  | cons t ts ih =>
    intro m v
    simp only [List.foldl_cons]
    rw [ih (bumpWord m t b) v]
    by_cases hvt : v = t
    · subst hvt
      rw [mapFind_bumpWord, if_pos rfl, addMany_addMany _ 1 _ _ _ (by simp)]
      simp [List.count_cons_self, List.replicate_succ, Nat.add_comm]
    · rw [mapFind_bumpWord]
      rw [if_neg hvt, List.count_cons_of_ne hvt]

/-- The nested per-subject iteration equals one fold over the flattened
token list. -/
lemma processSubjects_eq_flat (b : Book) (subs : List String) :
    ∀ m, processSubjects m b subs =
      (subs.flatMap tokenize).foldl (fun m w => bumpWord m w b) m := by
  induction subs with
  | nil => intro m; rfl
  | cons s ss ih =>
    intro m
    simp only [processSubjects] at ih ⊢
    rw [List.flatMap_cons, List.foldl_append, List.foldl_cons]
    exact ih _

/-- Folding a whole book list into the map adds, at each key, its total
occurrence count together with one copy of each book per occurrence. -/
lemma mapFind_buildFold (v : String) :
    ∀ (books : List Book) (m : WordMap),
      mapFind (books.foldl (fun m b => processSubjects m b (b.subjects.getD [])) m) v =
        addMany (mapFind m v) (totalOcc books v) (contribs books v) := by
  intro books
  induction books with
  | nil =>
    intro m
    simp [totalOcc, contribs, addMany_zero]
  | cons b bs ih =>
    intro m
    simp only [List.foldl_cons]
    rw [ih, processSubjects_eq_flat, mapFind_foldTokens]
    rw [addMany_addMany _ _ _ _ _ (fun h0 => by rw [show ((b.subjects.getD []).flatMap tokenize).count v = 0 from h0, List.replicate_zero])]
    simp [totalOcc, contribs, occIn, bookTokens]

/-- When every book's subjects list is present, the indexing pass succeeds
and computes the crash-free fold. -/
lemma buildE_ok : ∀ (books : List Book), (∀ b ∈ books, b.subjects ≠ none) →
    ∀ m, books.foldlM processBookE m =
      .ok (books.foldl (fun m b => processSubjects m b (b.subjects.getD [])) m) := by
  intro books
  induction books with
  | nil => intro _ m; rfl
  | cons b bs ih =>
    intro h m
    obtain ⟨subs, hsubs⟩ := Option.ne_none_iff_exists'.mp (h b (List.mem_cons_self b bs))
    have hbs : ∀ x ∈ bs, x.subjects ≠ none := fun x hx => h x (List.mem_cons_of_mem b hx)
    have hstep : processBookE m b = .ok (processSubjects m b (b.subjects.getD [])) := by
      simp [processBookE, hsubs]
    simp only [List.foldlM_cons, List.foldl_cons, hstep]
    exact ih hbs _

/-- C4 (amended): with every fetched book's subjects list present, the
indexing pass succeeds, and the resulting map holds, for each normalized
word — obtained by splitting each subject on the space character, stripping
non-alphabetic characters, lowercasing and discarding empty results — a
frequency equal to its total number of occurrences and a book list with one
copy of the contributing book per occurrence, duplicates preserved. -/
theorem C4_index_characterization (books : List Book)
    (h : ∀ b ∈ books, b.subjects ≠ none) :
    buildWordMapE books = .ok (buildPure books) ∧
    ∀ w, mapFind (buildPure books) w =
      if totalOcc books w = 0 then none
      else some ⟨totalOcc books w, contribs books w⟩ :=
  ⟨buildE_ok books h [], fun w => mapFind_buildFold w books []⟩

/-- C4 witness: on the one-book catalog `[bkArt]` the hypotheses hold, the
pass succeeds, and the word "art" gets frequency 1 with book list
`[bkArt]`. -/
theorem C4_witness :
    buildWordMapE [bkArt] = .ok (buildPure [bkArt]) ∧
    mapFind (buildPure [bkArt]) "art" = some ⟨1, [bkArt]⟩ := by
  have h := C4_index_characterization [bkArt] (by decide)
  exact ⟨h.1, (h.2 "art").trans (by decide)⟩

/-- C4 (counterexample): the claim's whitespace-based tokenization predicts
that "ab" never occurs for `bkTab` (whose single subject is "a\tb"), hence
is absent from the index; the code splits on the space character only, so
the tab survives into one piece and the stripped token "ab" is indexed with
frequency 1. -/
theorem C4_counterexample :
    buildWordMapE [bkTab] = .ok (buildPure [bkTab]) ∧
    mapFind (buildPure [bkTab]) "ab" ≠
      (if totalOccWs [bkTab] "ab" = 0 then none
       else some ⟨totalOccWs [bkTab] "ab", contribsWs [bkTab] "ab"⟩) :=
  ⟨rfl, by decide⟩

/-- A book with an empty (present) subjects list is skipped exactly by the
per-book step, wherever it sits in the catalog. -/
lemma foldlM_skip_empty (b : Book) (hb : b.subjects = some []) :
    ∀ (pre post : List Book) (m : WordMap),
      (pre ++ b :: post).foldlM processBookE m = (pre ++ post).foldlM processBookE m := by
  intro pre
  induction pre with
  | nil =>
    intro post m
    have hstep : processBookE m b = .ok m := by
      simp [processBookE, hb, processSubjects]
    simp only [List.nil_append, List.foldlM_cons, hstep]
    rfl
  | cons a pre ih =>
    intro post m
    simp only [List.cons_append, List.foldlM_cons]
    cases ha : processBookE m a with
    | error e => rfl
    | ok m1 => exact ih post m1

/-- C5 (counterexample): a book whose `subjects` field is absent makes the
indexing pass throw (the claim says it contributes nothing and raises no
failure); without it the pass over the same remaining books succeeds. -/
theorem C5_counterexample :
    buildWordMapE [bkArt, bkNoSubj] =
      .error "TypeError: Cannot read properties of undefined (reading forEach)" ∧
    buildWordMapE [bkArt] = .ok (buildPure [bkArt]) :=
  ⟨rfl, rfl⟩

/-- C5 (amended): a book with an empty (present but `[]`) subjects list
contributes nothing and raises no failure — the indexing result over the
remaining books is unchanged by its presence, wherever it occurs. -/
theorem C5_empty_subjects_no_effect (pre post : List Book) (b : Book)
    (h : b.subjects = some []) :
    buildWordMapE (pre ++ b :: post) = buildWordMapE (pre ++ post) :=
  foldlM_skip_empty b h pre post []

/-- C5 witness: inserting the empty-subjects book between two real books
leaves the index computation unchanged. -/
theorem C5_witness :
    buildWordMapE [bkArt, bkEmptySubj, bkTab] = buildWordMapE [bkArt, bkTab] :=
  C5_empty_subjects_no_effect [bkArt] [bkTab] bkEmptySubj rfl

/-- `bumpWord` keeps every entry's count equal to its book-list length. -/
lemma good_bumpWord (m : WordMap) (w : String) (b : Book)
    (h : ∀ p ∈ m, p.2.count = p.2.books.length) :
    ∀ p ∈ bumpWord m w b, p.2.count = p.2.books.length := by
  induction m with
  | nil =>
    intro p hp
    simp [bumpWord] at hp
    subst hp
    rfl
  | cons q rest ih =>
    obtain ⟨k, e⟩ := q
    have hk : e.count = e.books.length := h (k, e) (List.mem_cons_self _ _)
    have hrest : ∀ p ∈ rest, p.2.count = p.2.books.length :=
      fun p hp => h p (List.mem_cons_of_mem _ hp)
    intro p hp
    by_cases hkw : k = w
    · simp [bumpWord, hkw] at hp
      rcases hp with hp | hp
      · subst hp
        simp [hk]
      · exact hrest p hp
    · simp [bumpWord, hkw] at hp
      rcases hp with hp | hp
      · subst hp
        exact hk
      · exact ih hrest p hp

/-- Folding tokens preserves the count-equals-length invariant. -/
lemma good_foldTokens (b : Book) (ts : List String) :
    ∀ m, (∀ p ∈ m, p.2.count = p.2.books.length) →
      ∀ p ∈ ts.foldl (fun m w => bumpWord m w b) m, p.2.count = p.2.books.length := by
  induction ts with
  | nil => intro m h; exact h
  | cons t ts ih =>
    intro m h
    simp only [List.foldl_cons]
    exact ih _ (good_bumpWord m t b h)

/-- Processing one book's subjects preserves the invariant. -/
lemma good_processSubjects (b : Book) (subs : List String) (m : WordMap)
    (h : ∀ p ∈ m, p.2.count = p.2.books.length) :
    ∀ p ∈ processSubjects m b subs, p.2.count = p.2.books.length := by
  rw [processSubjects_eq_flat]
  exact good_foldTokens b _ m h

/-- Whenever the indexing pass succeeds, the resulting map satisfies the
invariant. -/
lemma good_buildE : ∀ (books : List Book) (m₀ m : WordMap),
    (∀ p ∈ m₀, p.2.count = p.2.books.length) →
    books.foldlM processBookE m₀ = .ok m →
    ∀ p ∈ m, p.2.count = p.2.books.length := by
  intro books
  induction books with
  | nil =>
    intro m₀ m h0 hok
    cases hok
    exact h0
  | cons b bs ih =>
    intro m₀ m h0 hok
    rw [List.foldlM_cons] at hok
    cases hb : processBookE m₀ b with
    | error e =>
      rw [hb] at hok
      cases hok
    | ok m1 =>
      rw [hb] at hok
      have hm1 : ∀ p ∈ m1, p.2.count = p.2.books.length := by
        cases hsub : b.subjects with
        | none => simp [processBookE, hsub] at hb
        | some subs =>
          simp only [processBookE, hsub, Except.ok.injEq] at hb
          subst hb
          exact good_processSubjects b subs m₀ h0
      exact ih m1 m hm1 hok

/-- C9: whenever the indexing pass completes, every word entry of the
resulting `wordsData` index has frequency equal to the length of its books
list, since both are updated together on every token occurrence. -/
theorem C9_frequency_eq_length (books : List Book) (m : WordMap)
    (h : buildWordMapE books = .ok m) :
    ∀ e ∈ toWordsData m, e.frequency = e.books.length := by
  have hm := good_buildE books [] m (by simp) h
  intro e he
  simp only [toWordsData, List.mem_map] at he
  obtain ⟨p, hp, rfl⟩ := he
  exact hm p hp

/-- C9 witness: on the concrete catalog `[bkArt]` the pass succeeds and the
single resulting entry has frequency 1 = length of its book list. -/
theorem C9_witness :
    (⟨"art", 1, [bkArt]⟩ : WordData).frequency = (⟨"art", 1, [bkArt]⟩ : WordData).books.length :=
  C9_frequency_eq_length [bkArt] (buildPure [bkArt]) rfl ⟨"art", 1, [bkArt]⟩ (by decide)

/-- With at most one planet group in the scene, `showPlanetaryPanel` leaves
exactly the new group. -/
lemma groups_after_select (s : Scene) (wd : WordData) (tl : YearRange)
    (h : s.planetGroups.length ≤ 1) :
    (showPlanetaryPanelOk wd tl s).planetGroups = [mkSatellites wd tl] := by
  cases hg : s.planetGroups with
  | nil => simp [showPlanetaryPanelOk, removeFirstGroup, hg]
  | cons g gs =>
    cases gs with
    | nil => simp [showPlanetaryPanelOk, removeFirstGroup, hg]
    | cons g2 gs2 =>
      rw [hg] at h
      simp at h

/-- C8: along every sequence of word selections from the initial scene,
the scene holds at most one planet group; and selecting word A then word B
(from any scene with at most one group) leaves exactly B's satellite group,
so no book object from A's selection remains. -/
theorem C8_single_selection_group (ws : List WordMesh) (sels : List (WordData × YearRange)) :
    (applySelections ws sels).planetGroups.length ≤ 1 ∧
    ∀ (s : Scene) (wdA wdB : WordData) (tlA tlB : YearRange),
      s.planetGroups.length ≤ 1 →
      (showPlanetaryPanelOk wdB tlB (showPlanetaryPanelOk wdA tlA s)).planetGroups =
        [mkSatellites wdB tlB] := by
  constructor
  · have inv : ∀ (l : List (WordData × YearRange)) (s : Scene), s.planetGroups.length ≤ 1 →
        (l.foldl (fun s p => showPlanetaryPanelOk p.1 p.2 s) s).planetGroups.length ≤ 1 := by
      intro l
      induction l with
      | nil => intro s hs; exact hs
      | cons p ps ih =>
        intro s hs
        simp only [List.foldl_cons]
        exact ih _ (by rw [groups_after_select s p.1 p.2 hs]; simp)
    exact inv sels (initScene ws) (by simp [initScene])
  · intro s wdA wdB tlA tlB hs
    apply groups_after_select
    rw [groups_after_select s wdA tlA hs]
    simp

/-- C8 witness: selecting "art" then the empty word from the initial scene
leaves exactly the empty word's (empty) satellite group. -/
theorem C8_witness :
    (showPlanetaryPanelOk wdEmpty fullRange
        (showPlanetaryPanelOk wdArt fullRange (initScene []))).planetGroups =
      [mkSatellites wdEmpty fullRange] :=
  (C8_single_selection_group [] []).2 (initScene []) wdArt wdEmpty fullRange fullRange
    (by decide)

end GutenbergGalaxy
